import Mathlib

/-!
Verification development for the clinica-evolution-api server
(`src/server.js`, with `src/unnamed/part_000` an earlier variant of the
same file). The definitions below are a shallow embedding of the
connection-lifecycle controller, the webhook notifier, the authentication
middleware and the route handlers that the specification talks about.
Strings, options and booleans model the corresponding JavaScript values;
`Option` models a possibly `undefined` value.
-/

/-- Truthiness of a JavaScript string-or-undefined value: `undefined` and
the empty string are falsy, every other string is truthy. -/
def truthyOpt : Option String → Bool
  | none => false
  | some s => !s.isEmpty

/-- The JavaScript expression `a || b` on two string-or-undefined values,
as used in `req.headers[..] || req.query.apikey`. -/
def jsOrOpt (a b : Option String) : Option String :=
  if truthyOpt a then a else b

/-- The `config` object built from environment variables at the top of
`server.js`: `instanceName`, `webhookUrl`, `authKey`, `serverUrl`.
Fields read from the environment may be `undefined`. -/
structure Config where
  instanceName : String
  webhookUrl : Option String
  authKey : Option String
  serverUrl : Option String
  deriving DecidableEq, Repr

/-- A broken-down calendar time, the value sampled by `new Date()` during
a call. Fields are the Gregorian components the runtime renders. -/
structure DateTime where
  year : Nat
  month : Nat
  day : Nat
  hour : Nat
  minute : Nat
  sec : Nat
  ms : Nat
  deriving DecidableEq, Repr

/-- The decimal digit character for `n % 10`. -/
def digitChar (n : Nat) : Char :=
  Char.ofNat (48 + n % 10)

/-- Two-digit zero-padded decimal rendering (as a character list). -/
def pad2 (n : Nat) : List Char :=
  [digitChar (n / 10), digitChar n]

/-- Three-digit zero-padded decimal rendering (as a character list). -/
def pad3 (n : Nat) : List Char :=
  [digitChar (n / 100), digitChar (n / 10), digitChar n]

/-- Four-digit zero-padded decimal rendering (as a character list). -/
def pad4 (n : Nat) : List Char :=
  [digitChar (n / 1000), digitChar (n / 100), digitChar (n / 10), digitChar n]

/-- Modelled from the spec: the runtime function `Date.prototype.toISOString`
used at `date_time: new Date().toISOString()` in `sendWebhook`; it is not
part of the repository. Per ECMA-262 it renders the sampled time in the
simplified ISO-8601 format `YYYY-MM-DDTHH:mm:ss.sssZ`. -/
def DateTime.toISOString (d : DateTime) : String :=
  String.mk (pad4 d.year ++ '-' :: pad2 d.month ++ '-' :: pad2 d.day ++
    'T' :: pad2 d.hour ++ ':' :: pad2 d.minute ++ ':' :: pad2 d.sec ++
    '.' :: pad3 d.ms ++ ['Z'])

/-- Checker for the simplified ISO-8601 date-time format
`YYYY-MM-DDTHH:mm:ss.sssZ`: 24 characters, digits and the fixed
separators at the fixed positions. -/
def isValidISO8601 (s : String) : Bool :=
  match s.toList with
  | [y1, y2, y3, y4, a, mo1, mo2, b, d1, d2, t, h1, h2, c, mi1, mi2, e,
     se1, se2, f, ms1, ms2, ms3, z] =>
      y1.isDigit && y2.isDigit && y3.isDigit && y4.isDigit && (a == '-') &&
      mo1.isDigit && mo2.isDigit && (b == '-') && d1.isDigit && d2.isDigit &&
      (t == 'T') && h1.isDigit && h2.isDigit && (c == ':') &&
      mi1.isDigit && mi2.isDigit && (e == ':') && se1.isDigit && se2.isDigit &&
      (f == '.') && ms1.isDigit && ms2.isDigit && ms3.isDigit && (z == 'Z')
  | _ => false

theorem digitChar_isDigit_fin : ∀ k : Fin 10, (Char.ofNat (48 + k.val)).isDigit = true := by
  decide

theorem digitChar_isDigit (n : Nat) : (digitChar n).isDigit = true := by
  have h := digitChar_isDigit_fin ⟨n % 10, Nat.mod_lt _ (by norm_num)⟩
  simpa [digitChar] using h

theorem toISOString_valid (d : DateTime) : isValidISO8601 d.toISOString = true := by
  simp [DateTime.toISOString, isValidISO8601, pad4, pad3, pad2,
    digitChar_isDigit, String.toList]

/-- The `key` object of a WhatsApp message: `remoteJid` identifies the
sender, `fromMe` marks self-sent messages. -/
structure MsgKey where
  remoteJid : Option String
  fromMe : Bool
  deriving DecidableEq, Repr

/-- An inbound message as consumed by the `messages.upsert` handler:
the `key` object and the (possibly absent) `message` payload. -/
structure Message where
  key : MsgKey
  message : Option String
  deriving DecidableEq, Repr

/-- The flattened request body that `sendWebhook` posts to the configured
webhook URL. The source object key `instance` is modelled by the field
`instanceName` because `instance` is reserved in Lean. -/
structure WebhookPayload where
  instanceName : String
  data : Message
  event : String
  apikey : Option String
  sender : Option String
  date_time : String
  server_url : Option String
  destination : Option String
  deriving DecidableEq, Repr

/-- The payload object literal passed to `axios.post` inside `sendWebhook`,
with `now` the time sampled by `new Date()` during the call. -/
def mkPayload (cfg : Config) (data : Message) (now : DateTime) : WebhookPayload :=
  { instanceName := cfg.instanceName
    data := data
    event := "messages.upsert"
    apikey := cfg.authKey
    sender := data.key.remoteJid
    date_time := now.toISOString
    server_url := cfg.serverUrl
    destination := cfg.webhookUrl }

/-- Observable outcome of one `sendWebhook` call: the bodies handed to
`axios.post` (in order), the exception propagated to the caller if any,
and the log lines produced. -/
structure SendOutcome where
  posts : List WebhookPayload
  threw : Option String
  logs : List String
  deriving DecidableEq, Repr

/-- The `sendWebhook` function of `server.js`. The `delivery` argument is
the result of the external `axios.post` call (`Except.error` models a
network error, non-2xx response or timeout, all of which axios raises as
an exception); the body of `sendWebhook` wraps that call in try/catch. -/
def sendWebhook (cfg : Config) (data : Message) (now : DateTime)
    (delivery : Except String Unit) : SendOutcome :=
  if !truthyOpt cfg.webhookUrl then { posts := [], threw := none, logs := [] }
  else
    match delivery with
    | .ok _ =>
        { posts := [mkPayload cfg data now], threw := none
          logs := ["Webhook sent successfully"] }
    | .error e =>
        { posts := [mkPayload cfg data now], threw := none
          logs := ["Webhook error: " ++ e] }

/-- Result of a JavaScript call as observed by its caller: a normal
return value or a thrown exception. -/
inductive JsOutcome (α : Type) where
  | ok (a : α)
  | thrown (e : String)
  deriving DecidableEq, Repr

/-- The `messages.upsert` event handler: it reads `m.messages[0]` and,
when that first message is not self-sent and has a payload, awaits
`sendWebhook` on it. Indexing `[0]` into an empty array yields `undefined`
and the subsequent `.key` access throws, which the model records as
`thrown`. The normal return value is the list of webhook bodies posted. -/
def upsertHandler (cfg : Config) (now : DateTime) (delivery : Except String Unit)
    (batch : List Message) : JsOutcome (List WebhookPayload) :=
  match batch with
  | [] => .thrown "TypeError: cannot read properties of undefined"
  | message :: _ =>
      if !message.key.fromMe && message.message.isSome then
        .ok (sendWebhook cfg message now delivery).posts
      else
        .ok []

/-- The webhook bodies actually delivered by one handler invocation. -/
def deliveredOf : JsOutcome (List WebhookPayload) → List WebhookPayload
  | .ok l => l
  | .thrown _ => []

/-- A stream of `messages.upsert` events, each with the delivery outcome
its own `sendWebhook` call would see; every event is dispatched to the
handler independently. -/
def processAll (cfg : Config) (now : DateTime)
    (events : List (List Message × Except String Unit)) :
    List (JsOutcome (List WebhookPayload)) :=
  events.map fun ev => upsertHandler cfg now ev.2 ev.1

/-- The Baileys constant `DisconnectReason.loggedOut` (HTTP status 401)
compared against `lastDisconnect.error.output.statusCode`. -/
def DisconnectReason.loggedOut : Nat := 401

/-- A lifecycle event delivered to the `connection.update` handler:
a pairing code (`qr` field), a connection opened, or a connection closed
with the status code of `lastDisconnect` (absent when there is no error). -/
inductive LifeEvent where
  | pairing (code : String)
  | opened
  | closed (reason : Option Nat)
  deriving DecidableEq, Repr

/-- The module-level mutable state of `server.js` touched by the
`connection.update` handler, plus the list of reconnection delays (ms)
passed to `setTimeout`, in the order they were scheduled. -/
structure ServerState where
  connectionState : String
  isConnected : Bool
  qrDinamic : Option String
  scheduled : List Nat
  deriving DecidableEq, Repr

/-- Initial values of the module-level variables:
`connectionState = "close"`, `isConnected = false`, `qrDinamic` unset. -/
def initialState : ServerState :=
  { connectionState := "close", isConnected := false, qrDinamic := none
    scheduled := [] }

/-- One step of the `connection.update` handler. A pairing code sets
`qrDinamic` and `connectionState = "qr"` unconditionally; `open` sets
`connectionState = "open"` and `isConnected`; `close` resets both and
schedules `setTimeout(connectWhatsApp, 3000)` unless the disconnect
status code equals `DisconnectReason.loggedOut`. -/
def handleConnectionUpdate (s : ServerState) (e : LifeEvent) : ServerState :=
  match e with
  | .pairing code => { s with qrDinamic := some code, connectionState := "qr" }
  | .opened => { s with connectionState := "open", isConnected := true }
  | .closed reason =>
      { s with
        connectionState := "close",
        isConnected := false,
        scheduled := s.scheduled ++
          if reason ≠ some DisconnectReason.loggedOut then [3000] else [] }

/-- The state after the handler has consumed a sequence of lifecycle
events starting from the initial module state. -/
def runUpdates (es : List LifeEvent) : ServerState :=
  es.foldl handleConnectionUpdate initialState

/-- The reconnection delay one `close` event gives rise to (`none` for a
logged-out closure, which must not reconnect). -/
def closedReconnectDelay : LifeEvent → Option Nat
  | .closed reason =>
      if reason ≠ some DisconnectReason.loggedOut then some 3000 else none
  | _ => none

/-- The delays scheduled by one `connectWhatsApp` invocation: when the
session setup throws, the catch block schedules
`setTimeout(connectWhatsApp, 5000)`; otherwise the handler runs and the
schedules are those of the processed events. -/
def connectWhatsAppSchedules (setupFails : Bool) (es : List LifeEvent) : List Nat :=
  if setupFails then [5000] else (runUpdates es).scheduled

/-- The abstract ConnectionState of the specification. -/
inductive ConnState where
  | disconnected
  | awaitingPairing
  | connected
  deriving DecidableEq, Repr

/-- Abstraction from the string `connectionState` of the source to the
ConnectionState of the specification: `"qr"` is `awaiting_pairing`,
`"open"` is `connected`, `"close"` is `disconnected`. -/
def absConn (s : String) : ConnState :=
  if s = "qr" then .awaitingPairing
  else if s = "open" then .connected
  else .disconnected

/-- Modelled from the spec: the transition table of section 4.1, applied
as written — an event with no row for the current state leaves the state
unchanged. In particular a pairing-code event received while `connected`
leaves the state `connected`. -/
def specStep : ConnState → LifeEvent → ConnState
  | .disconnected, .pairing _ => .awaitingPairing
  | .awaitingPairing, .pairing _ => .awaitingPairing
  | .connected, .pairing _ => .connected
  | _, .opened => .connected
  | _, .closed _ => .disconnected

/-- The transition table the code actually implements: every event is
applied unconditionally, so a pairing-code event moves ANY state
(including `connected`) to `awaiting_pairing`. This is the table of
section 4.1 extended with the row `connected → awaiting_pairing` on a
pairing-code event. -/
def amendedStep : ConnState → LifeEvent → ConnState
  | _, .pairing _ => .awaitingPairing
  | _, .opened => .connected
  | _, .closed _ => .disconnected

/-- The JSON bodies the modelled route handlers produce. Each constructor
is one concrete response shape of the source. -/
inductive RespBody where
  | unauthorized
  | instanceNotFound
  | instanceInfo (name conn : String) (connected : Bool) (serverUrl : Option String)
  | alreadyConnected
  | qrPayload (dataUrl : String)
  | qrNotAvailable
  | notConnected
  | messageSent (id : String)
  | serverError (msg : String)
  | webhookConfigured (url : Option String) (enabled : Bool)
  deriving DecidableEq, Repr

/-- An HTTP response: status code and JSON body. -/
structure ApiResponse where
  status : Nat
  body : RespBody
  deriving DecidableEq, Repr

/-- Outcome of the `authenticate` middleware: either it responds 401 or
it calls `next()` and the route handler runs. -/
inductive AuthResult where
  | unauthorized
  | proceed
  deriving DecidableEq, Repr

/-- The `authenticate` middleware: `apikey` is
`req.headers[..] || req.query.apikey`; the strict comparison
`apikey !== config.authKey` sends 401 on mismatch, where two `undefined`
values compare equal. -/
def authenticate (header query cfgKey : Option String) : AuthResult :=
  if jsOrOpt header query ≠ cfgKey then .unauthorized else .proceed

/-- An authenticated endpoint: the middleware runs first; on 401 the
handler does not run (second component records whether it ran). -/
def runAuthenticated (header query cfgKey : Option String)
    (handler : ApiResponse) : ApiResponse × Bool :=
  match authenticate header query cfgKey with
  | .unauthorized => ({ status := 401, body := .unauthorized }, false)
  | .proceed => (handler, true)

/-- One segment of an Express route pattern: a literal segment or a
named parameter such as `:instanceName`. -/
inductive Seg where
  | lit (s : String)
  | param (name : String)
  deriving DecidableEq, Repr

/-- Whether one pattern segment matches one path segment: a literal
matches itself, a parameter matches any non-empty segment. -/
def segMatches : Seg → String → Bool
  | .lit s, t => s == t
  | .param _, t => !t.isEmpty

/-- Whether a route pattern matches a path (same length, segmentwise). -/
def routeMatches : List Seg → List String → Bool
  | [], [] => true
  | p :: ps, t :: ts => segMatches p t && routeMatches ps ts
  | _, _ => false

/-- Tags for the GET route handlers of `server.js`, in the order the
routes are registered on `app`. -/
inductive GetHandler where
  | root
  | health
  | instanceList
  | instanceByName
  | instanceQr
  | qrHtml
  | instanceStatus
  | mediaById
  | chatApiMedia
  deriving DecidableEq, Repr

/-- The GET routing table of `server.js` in registration order. Note that
`/instance/:instanceName` (line 166) is registered before `/instance/qr`
(line 210) and before `/instance/status` (line 315). -/
def serverGetRoutes : List (List Seg × GetHandler) :=
  [([], .root),
   ([.lit "health"], .health),
   ([.lit "instance"], .instanceList),
   ([.lit "instance", .param "instanceName"], .instanceByName),
   ([.lit "instance", .lit "qr"], .instanceQr),
   ([.lit "qr"], .qrHtml),
   ([.lit "instance", .lit "status"], .instanceStatus),
   ([.lit "message", .lit "media", .param "messageId"], .mediaById),
   ([.lit "chat-api", .lit "get-media-base64", .param "instanceName",
     .param "messageId"], .chatApiMedia)]

/-- Express dispatch: the first registered route whose pattern matches
the request path handles the request. -/
def dispatchGet (path : List String) : Option GetHandler :=
  (serverGetRoutes.find? fun r => routeMatches r.1 path).map (·.2)

/-- The `GET /instance/:instanceName` handler: 404 if the captured
parameter differs from the configured instance name, else the instance
status object. -/
def instanceByNameResponse (cfg : Config) (st : ServerState) (name : String) :
    ApiResponse :=
  if name ≠ cfg.instanceName then { status := 404, body := .instanceNotFound }
  else
    { status := 200
      body := .instanceInfo cfg.instanceName st.connectionState st.isConnected
        cfg.serverUrl }

/-- The `GET /instance/qr` handler body: if `connectionState === "open"`,
respond `error:false, connected:true` at once; else if `qrDinamic` is
truthy, render it with `qrcode.toDataURL` (the external renderer is the
`render` argument) and return the image-data payload; else `error:true`.
-/
def instanceQrResponse (st : ServerState) (render : String → String) :
    ApiResponse :=
  if st.connectionState == "open" then { status := 200, body := .alreadyConnected }
  else if truthyOpt st.qrDinamic then
    { status := 200, body := .qrPayload (render (st.qrDinamic.getD "")) }
  else
    { status := 200, body := .qrNotAvailable }

/-- The request body of `POST /message/text`. -/
structure TextBody where
  remoteJid : Option String
  message : Option String
  deriving DecidableEq, Repr

/-- One call to `sock.sendMessage`: the recipient and text passed. -/
structure SendCall where
  jid : Option String
  text : Option String
  deriving DecidableEq, Repr

/-- The `POST /message/text` handler: with `isConnected` false it responds
400 without touching `sock`; otherwise it awaits `sock.sendMessage` (the
external result is the `send` argument) and responds 200 with the message
id, or 500 when the send throws. The second component lists the
`sock.sendMessage` calls performed. -/
def messageTextHandler (isConnected : Bool) (body : TextBody)
    (send : Except String String) : ApiResponse × List SendCall :=
  if !isConnected then
    ({ status := 400, body := .notConnected }, [])
  else
    match send with
    | .ok id =>
        ({ status := 200, body := .messageSent id },
         [{ jid := body.remoteJid, text := body.message }])
    | .error e =>
        ({ status := 500, body := .serverError e },
         [{ jid := body.remoteJid, text := body.message }])

/-- The request body of `POST /webhook/:instanceName`. -/
structure WebhookBody where
  url : Option String
  enabled : Option Bool
  deriving DecidableEq, Repr

/-- The `POST /webhook/:instanceName` handler: 404 on instance-name
mismatch; otherwise `config.webhookUrl` is overwritten only when the
supplied `url` is truthy, and the response echoes `enabled !== false`
without storing it anywhere. Returns the updated config and response. -/
def webhookConfigHandler (cfg : Config) (param : String) (body : WebhookBody) :
    Config × ApiResponse :=
  if param ≠ cfg.instanceName then
    (cfg, { status := 404, body := .instanceNotFound })
  else
    let cfg' := if truthyOpt body.url then { cfg with webhookUrl := body.url } else cfg
    (cfg',
     { status := 200
       body := .webhookConfigured cfg'.webhookUrl (body.enabled != some false) })

/-- A configuration with instance name `kore` (the source default). -/
def koreConfig : Config :=
  { instanceName := "kore", webhookUrl := none, authKey := some "secret"
    serverUrl := none }

/-- A server state that is connected while still holding a stale cached
pairing artifact. -/
def openStaleState : ServerState :=
  { connectionState := "open", isConnected := true, qrDinamic := some "STALE"
    scheduled := [] }

theorem absConn_handleConnectionUpdate (s : ServerState) (e : LifeEvent) :
    absConn (handleConnectionUpdate s e).connectionState
      = amendedStep (absConn s.connectionState) e := by
  cases e <;> rfl

theorem absConn_foldl (es : List LifeEvent) : ∀ s : ServerState,
    absConn (es.foldl handleConnectionUpdate s).connectionState
      = es.foldl amendedStep (absConn s.connectionState) := by
  induction es with
  | nil => intro s; rfl
  | cons e es ih =>
      intro s
      simpa [absConn_handleConnectionUpdate s e] using
        ih (handleConnectionUpdate s e)

theorem scheduled_foldl (es : List LifeEvent) : ∀ s : ServerState,
    (es.foldl handleConnectionUpdate s).scheduled
      = s.scheduled ++ es.filterMap closedReconnectDelay := by
  induction es with
  | nil => intro s; simp
  | cons e es ih =>
      intro s
      rw [List.foldl, ih (handleConnectionUpdate s e)]
      cases e with
      | pairing code => simp [handleConnectionUpdate, closedReconnectDelay]
      | opened => simp [handleConnectionUpdate, closedReconnectDelay]
      | closed r =>
          by_cases h : r = some DisconnectReason.loggedOut <;>
            simp [handleConnectionUpdate, closedReconnectDelay, h]

/-- C1 (counterexample): after the event sequence connection-opened then
pairing-code, the handler leaves the state `awaiting_pairing`, while the
transition table of section 4.1 applied in event order from
`disconnected` leaves it `connected` (the table has no pairing-code row
for `connected`). The claim that the handler never moves a connected
state to `awaiting_pairing` on a pairing-code event is therefore false. -/
theorem pairing_while_connected_counterexample :
    absConn (runUpdates [LifeEvent.opened, LifeEvent.pairing "ABC123"]).connectionState
      = ConnState.awaitingPairing ∧
    List.foldl specStep ConnState.disconnected
        [LifeEvent.opened, LifeEvent.pairing "ABC123"]
      = ConnState.connected ∧
    ConnState.awaitingPairing ≠ ConnState.connected := by
  refine ⟨by decide, by decide, by decide⟩

/-- C1 (amended): for every sequence of lifecycle events, the resulting
ConnectionState equals the fold, in event order from `disconnected`, of
the per-event transition the handler actually implements: pairing code
moves any state (including `connected`) to `awaiting_pairing`, open moves
any state to `connected`, close moves any state to `disconnected` — the
table of section 4.1 extended with `connected → awaiting_pairing` on a
pairing-code event. No event is skipped. -/
theorem connection_state_machine_amended (es : List LifeEvent) :
    absConn (runUpdates es).connectionState
      = es.foldl amendedStep ConnState.disconnected := by
  simpa using absConn_foldl es initialState

/-- C2: a logged-out closure schedules no reconnection attempt; every
other closure reason (including an absent one) schedules exactly one
attempt with the fixed 3000 ms delay; a sequence of n non-logged-out
closures schedules n attempts (no maximum retry count); and an exception
during initial connect schedules one attempt with the 5000 ms delay. -/
theorem reconnect_policy :
    (∀ es : List LifeEvent,
        (runUpdates es).scheduled = es.filterMap closedReconnectDelay) ∧
    (∀ r : Option Nat,
        closedReconnectDelay (LifeEvent.closed r)
          = if r = some DisconnectReason.loggedOut then none else some 3000) ∧
    (∀ n : Nat,
        ((runUpdates (List.replicate n (LifeEvent.closed none))).scheduled).length
          = n) ∧
    (∀ es : List LifeEvent, connectWhatsAppSchedules true es = [5000]) := by
  have h1 : ∀ es : List LifeEvent,
      (runUpdates es).scheduled = es.filterMap closedReconnectDelay := by
    intro es
    simpa [runUpdates, initialState] using scheduled_foldl es initialState
  refine ⟨h1, ?_, ?_, fun es => rfl⟩
  · intro r
    by_cases h : r = some DisconnectReason.loggedOut <;>
      simp [closedReconnectDelay, h]
  · intro n
    rw [h1]
    induction n with
    | zero => rfl
    | succ n ih =>
        simp [List.replicate, closedReconnectDelay, DisconnectReason.loggedOut, ih]

/-- C3 (code bug): a request for `GET /instance/qr` is dispatched to the
earlier-registered `GET /instance/:instanceName` route, which (with the
configured instance name `kore`) responds 404 `Instance not found` even
while connected — not the claimed `error:false, connected:true` object.
The dedicated `/instance/qr` handler, which would return exactly the
claimed response regardless of the stale cached artifact, is unreachable.
-/
theorem instance_qr_route_shadowed :
    dispatchGet ["instance", "qr"] = some GetHandler.instanceByName ∧
    instanceByNameResponse koreConfig openStaleState "qr"
      = { status := 404, body := RespBody.instanceNotFound } ∧
    instanceQrResponse openStaleState (fun s => s)
      = { status := 200, body := RespBody.alreadyConnected } := by
  refine ⟨by decide, by decide, by decide⟩

/-- C4: `sendWebhook` never propagates an exception to its caller, for
every configuration, message, clock value and delivery outcome (success
or failure); and the event stream is processed elementwise, so the
outcome of one `messages.upsert` event never affects the dispatch of the
subsequent events. -/
theorem webhook_failure_never_propagates :
    (∀ (cfg : Config) (data : Message) (now : DateTime)
        (delivery : Except String Unit),
        (sendWebhook cfg data now delivery).threw = none) ∧
    (∀ (cfg : Config) (now : DateTime)
        (ev : List Message × Except String Unit)
        (evs : List (List Message × Except String Unit)),
        processAll cfg now (ev :: evs)
          = upsertHandler cfg now ev.2 ev.1 :: processAll cfg now evs) := by
  constructor
  · intro cfg data now delivery
    by_cases h : truthyOpt cfg.webhookUrl <;> cases delivery <;>
      simp [sendWebhook, h]
  · intro cfg now ev evs
    rfl

/-- C5: an authenticated `POST /message/text` received while not
connected responds 400 `WhatsApp not connected` and performs no
`sock.sendMessage` call, whatever the request body and whatever the send
operation would have returned. -/
theorem message_text_requires_connected (body : TextBody)
    (send : Except String String) :
    messageTextHandler false body send
      = ({ status := 400, body := RespBody.notConnected }, []) := rfl

/-- C6: with the webhook URL unset, `sendWebhook` performs zero outbound
posts, throws nothing and logs nothing — a silent no-op — for every
instance name, auth key, server URL, message, clock value and would-be
delivery outcome. -/
theorem unset_webhook_url_noop (name : String) (key surl : Option String)
    (data : Message) (now : DateTime) (delivery : Except String Unit) :
    sendWebhook
        { instanceName := name, webhookUrl := none, authKey := key
          serverUrl := surl } data now delivery
      = { posts := [], threw := none, logs := [] } := rfl

/-- C7: whenever the webhook URL is truthy, exactly the payload built by
`mkPayload` is posted, and that payload carries the configured instance
name, the raw message event, the fixed tag `messages.upsert`, the shared
auth key, the sender identifier `data.key.remoteJid`, a `date_time` that
renders the clock value sampled during the call (hence lies inside the
execution window of the call) and is a valid ISO-8601 timestamp, the
configured server URL, and the destination equal to the configured
webhook URL. -/
theorem webhook_payload_contents (cfg : Config) (data : Message)
    (now : DateTime) (delivery : Except String Unit) :
    (sendWebhook cfg data now delivery).posts
      = (if truthyOpt cfg.webhookUrl then [mkPayload cfg data now] else []) ∧
    (mkPayload cfg data now).instanceName = cfg.instanceName ∧
    (mkPayload cfg data now).data = data ∧
    (mkPayload cfg data now).event = "messages.upsert" ∧
    (mkPayload cfg data now).apikey = cfg.authKey ∧
    (mkPayload cfg data now).sender = data.key.remoteJid ∧
    (mkPayload cfg data now).date_time = now.toISOString ∧
    isValidISO8601 (mkPayload cfg data now).date_time = true ∧
    (mkPayload cfg data now).server_url = cfg.serverUrl ∧
    (mkPayload cfg data now).destination = cfg.webhookUrl := by
  refine ⟨?_, rfl, rfl, rfl, rfl, rfl, rfl, toISOString_valid now, rfl, rfl⟩
  by_cases h : truthyOpt cfg.webhookUrl <;> cases delivery <;>
    simp [sendWebhook, h]

/-- C8 (counterexample): with the configured authentication key unset and
no `apikey` supplied in header or query, the two `undefined` values
compare strictly equal, so the middleware calls `next()` and the handler
executes — no HTTP 401 — refuting the claim that a missing secret yields
401 for every configuration. -/
theorem auth_unset_key_counterexample :
    runAuthenticated none none none
        { status := 200, body := RespBody.alreadyConnected }
      = ({ status := 200, body := RespBody.alreadyConnected }, true) := rfl

/-- C8 (amended): a request to an authenticated endpoint gets HTTP 401
with the handler not executed exactly when the supplied key (the
`apikey` header, else the `apikey` query parameter) differs from the
configured key under strict comparison; when the two agree — including
the configuration where the configured key is unset and no key is
supplied, both being `undefined` — the handler executes. -/
theorem auth_strict_comparison (header query cfgKey : Option String)
    (handler : ApiResponse) :
    runAuthenticated header query cfgKey handler
      = if jsOrOpt header query = cfgKey then (handler, true)
        else ({ status := 401, body := RespBody.unauthorized }, false) := by
  by_cases h : jsOrOpt header query = cfgKey <;>
    simp [runAuthenticated, authenticate, h]

/-- C9: the `messages.upsert` handler inspects only the message at index
0 of the batch — its result is unchanged when every later message is
dropped — and every delivered payload is built from that first message
(forwarded only when it is not self-sent and has a payload), so messages
at index 1 or greater are silently ignored and never delivered. -/
theorem only_first_message_processed (cfg : Config) (now : DateTime)
    (delivery : Except String Unit) (m : Message) (rest : List Message) :
    upsertHandler cfg now delivery (m :: rest)
      = upsertHandler cfg now delivery [m] ∧
    deliveredOf (upsertHandler cfg now delivery (m :: rest))
      = (if !m.key.fromMe && m.message.isSome
         then (sendWebhook cfg m now delivery).posts else []) ∧
    (deliveredOf (upsertHandler cfg now delivery (m :: rest))).all
        (fun p => p.data == m) = true := by
  refine ⟨rfl, ?_, ?_⟩
  · cases hc : (!m.key.fromMe && m.message.isSome) <;>
      simp [upsertHandler, deliveredOf, hc]
  · cases hc : (!m.key.fromMe && m.message.isSome) <;>
      by_cases h : truthyOpt cfg.webhookUrl <;> cases delivery <;>
        simp [upsertHandler, deliveredOf, sendWebhook, mkPayload, hc, h]

/-- C10: reconfiguring the webhook changes nothing but the webhook URL —
instance name, auth key and server URL are untouched; the URL changes
exactly when the path parameter matches the configured instance and the
supplied `url` is truthy (a falsy `url` leaves the previous value, so the
webhook cannot be unset); the response merely echoes `enabled !== false`;
the stored result is independent of `enabled`; and subsequent
`sendWebhook` behaviour is therefore unaffected by the `enabled` flag. -/
theorem webhook_reconfig_frame (cfg : Config) (param : String)
    (body : WebhookBody) :
    ((webhookConfigHandler cfg param body).1.instanceName = cfg.instanceName ∧
     (webhookConfigHandler cfg param body).1.authKey = cfg.authKey ∧
     (webhookConfigHandler cfg param body).1.serverUrl = cfg.serverUrl) ∧
    (webhookConfigHandler cfg param body).1.webhookUrl
      = (if (param == cfg.instanceName) && truthyOpt body.url then body.url
         else cfg.webhookUrl) ∧
    (webhookConfigHandler cfg cfg.instanceName body).2
      = { status := 200
          body := RespBody.webhookConfigured
            (if truthyOpt body.url then body.url else cfg.webhookUrl)
            (body.enabled != some false) } ∧
    (∀ e1 e2 : Option Bool,
        (webhookConfigHandler cfg param { url := body.url, enabled := e1 }).1
          = (webhookConfigHandler cfg param { url := body.url, enabled := e2 }).1) ∧
    (∀ (e : Option Bool) (data : Message) (now : DateTime)
        (d : Except String Unit),
        sendWebhook
            (webhookConfigHandler cfg param { url := body.url, enabled := e }).1
            data now d
          = sendWebhook (webhookConfigHandler cfg param body).1 data now d) := by
  refine ⟨?_, ?_, ?_, ?_, ?_⟩
  · by_cases hp : param = cfg.instanceName <;>
      by_cases hu : truthyOpt body.url <;>
        simp [webhookConfigHandler, hp, hu]
  · by_cases hp : param = cfg.instanceName <;>
      by_cases hu : truthyOpt body.url <;>
        simp [webhookConfigHandler, hp, hu]
  · by_cases hu : truthyOpt body.url <;>
      simp [webhookConfigHandler, hu]
  · intro e1 e2
    by_cases hp : param = cfg.instanceName <;>
      by_cases hu : truthyOpt body.url <;>
        simp [webhookConfigHandler, hp, hu]
  · intro e data now d
    by_cases hp : param = cfg.instanceName <;>
      by_cases hu : truthyOpt body.url <;>
        simp [webhookConfigHandler, hp, hu]
